import Mathlib

set_option autoImplicit false

/-
Shallow embedding of the core of the ardopmeshchat repository:
  - mesh_node.py  (mesh header codec, OGM handling, DATA handling, dedup
    cache, routing tables, cleanup loop, build of DATA payloads)
  - kiss_link.py  (reconnect backoff, the RX-callback boundary)
Byte strings are modelled as `List Nat` (genuine bytes are < 256);
timestamps as `Nat`; the external zlib compressor/decompressor and the
AEAD encryptor are parameters of the functions that call them, exactly
at the call sites the Python code uses them.
-/

namespace ArdopMesh

/-- A byte string: mesh_node.py manipulates Python `bytes`. -/
abbrev Bytes := List Nat

/-- Constant `MESH_VERSION = 1` of mesh_node.py. -/
def MESH_VERSION : Nat := 1

/-- Constant `MESH_MSG_DATA = 0` of mesh_node.py. -/
def MESH_MSG_DATA : Nat := 0

/-- Constant `MESH_MSG_OGM = 1` of mesh_node.py. -/
def MESH_MSG_OGM : Nat := 1

/-- Constant `MESH_FLAG_COMPRESSED = 0x01` of mesh_node.py. -/
def MESH_FLAG_COMPRESSED : Nat := 0x01

/-- Constant `MESH_FLAG_ENCRYPTED = 0x02` of mesh_node.py. -/
def MESH_FLAG_ENCRYPTED : Nat := 0x02

/-- `struct.pack(">I", n)`: big-endian 32-bit encoding of `n`. -/
def pack_be32 (n : Nat) : Bytes :=
  [n / 2 ^ 24 % 256, n / 2 ^ 16 % 256, n / 2 ^ 8 % 256, n % 256]

/-- `struct.unpack(">I", b)[0]` on a 4-byte string. -/
def unpack_be32 (b : Bytes) : Nat :=
  b.getD 0 0 * 2 ^ 24 + b.getD 1 0 * 2 ^ 16 + b.getD 2 0 * 2 ^ 8 + b.getD 3 0

/-- `MeshNode._build_mesh_header` (mesh_node.py, lines 230-245): a 16-byte
header `version ‖ msg_type ‖ flags ‖ ttl ‖ origin_id(8) ‖ seqno_be32`. -/
def build_mesh_header (msg_type flags ttl : Nat) (origin_id : Bytes) (seqno : Nat) : Bytes :=
  [MESH_VERSION, msg_type, flags, ttl] ++ origin_id ++ pack_be32 seqno

/-- `MeshNode._parse_mesh_header` (mesh_node.py, lines 247-257): raises
`ValueError("info too short for mesh header")` when the input is shorter
than 16 bytes, otherwise returns the six header fields. -/
def parse_mesh_header (info : Bytes) :
    Except String (Nat × Nat × Nat × Nat × Bytes × Nat) :=
  if info.length < 16 then
    Except.error "info too short for mesh header"
  else
    Except.ok (info.getD 0 0, info.getD 1 0, info.getD 2 0, info.getD 3 0,
      (info.drop 4).take 8, unpack_be32 ((info.drop 12).take 4))

/-- `OriginatorEntry` dataclass of mesh_node.py. -/
structure OriginatorEntry where
  best_next_hop : Bytes
  last_seqno : Nat
  metric : Nat
  last_seen : Nat
deriving DecidableEq, Repr

/-- `NeighborEntry` dataclass of mesh_node.py. -/
structure NeighborEntry where
  last_seen : Nat
  link_metric : Nat
deriving DecidableEq, Repr

/-- `MeshRoutingState` dataclass: the two Python dicts, modelled as
association lists. -/
structure MeshRoutingState where
  originators : List (Bytes × OriginatorEntry)
  neighbors : List (Bytes × NeighborEntry)
deriving DecidableEq, Repr

/-- `dict.get`: the value stored under a key, if any. -/
def mapGet {κ α : Type} [DecidableEq κ] (m : List (κ × α)) (k : κ) : Option α :=
  match m with
  | [] => none
  | (k0, v0) :: rest => if k0 = k then some v0 else mapGet rest k

/-- `dict.__setitem__`: replace the value under a present key, else add
the pair. -/
def mapSet {κ α : Type} [DecidableEq κ] (m : List (κ × α)) (k : κ) (v : α) : List (κ × α) :=
  match m with
  | [] => [(k, v)]
  | (k0, v0) :: rest => if k0 = k then (k, v) :: rest else (k0, v0) :: mapSet rest k v

/-- `key in dict`. -/
def mapContains {κ α : Type} [DecidableEq κ] (m : List (κ × α)) (k : κ) : Bool :=
  (mapGet m k).isSome

/-- `MeshNode._handle_ogm` (mesh_node.py, lines 281-330).  Updates the
neighbor entry for `prev_hop_id`, updates the originator entry for
`origin_id` (insert when absent, replace only when `seqno` is strictly
greater), and when `ttl > 1` returns the forwarded mesh payload
(header with `ttl - 1` plus body `self_node_id ‖ link_metric`) that the
code wraps in a UI frame and sends. -/
def handle_ogm (node_id : Bytes) (st : MeshRoutingState) (now : Nat)
    (origin_id : Bytes) (seqno ttl : Nat) (prev_hop_id : Bytes) (link_metric : Nat) :
    MeshRoutingState × Option Bytes :=
  let neighbors' := mapSet st.neighbors prev_hop_id ⟨now, link_metric⟩
  let originators' :=
    match mapGet st.originators origin_id with
    | none => mapSet st.originators origin_id ⟨prev_hop_id, seqno, link_metric, now⟩
    | some entry =>
        if seqno > entry.last_seqno then
          mapSet st.originators origin_id ⟨prev_hop_id, seqno, link_metric, now⟩
        else st.originators
  let fwd :=
    if ttl > 1 then
      some (build_mesh_header MESH_MSG_OGM 0 (ttl - 1) origin_id seqno ++
        (node_id ++ [link_metric]))
    else none
  (⟨originators', neighbors'⟩, fwd)

/-- Python exceptions, split by whether `except ValueError` catches them. -/
inductive PyError where
  | valueError (msg : String)
  | otherError (msg : String)
deriving DecidableEq, Repr

/-- The externally observable effects of handling one frame: delivery to
the application callback, or a mesh payload handed to
`_wrap_in_ax25_ui` and then to `KISSClient.send`. -/
inductive MeshAction where
  | deliver (origin_id dest_id : Bytes) (data_seq : Nat) (app_bytes : Bytes)
  | send (payload : Bytes)
deriving DecidableEq, Repr

/-- The dedup cache `_data_seen`: `(origin_id, seqno) → insertion time`. -/
abbrev DedupMap := List ((Bytes × Nat) × Nat)

/-- `MeshNode._lookup_best_next_hop` (mesh_node.py, lines 460-464). -/
def lookup_best_next_hop (originators : List (Bytes × OriginatorEntry))
    (dest_id : Bytes) : Option Bytes :=
  (mapGet originators dest_id).map OriginatorEntry.best_next_hop

/-- The part of `MeshNode._handle_data_frame` after the dedup gate
(mesh_node.py, lines 394-458).  `decrypt` stands for
`MeshEncryptor.decrypt` (a failure is a raised exception, so the result
is `Except`); `decompress` stands for `zlib.decompress` (`none` models a
raised `zlib.error`, which the code catches and turns into a drop).
A result of `Except.ok none` is a drop; `Except.error e` models an
uncaught exception escaping the handler. -/
def handle_data_body (node_id : Bytes)
    (decrypt : Bytes → Bytes → Bytes → Except PyError Bytes)
    (decompress : Bytes → Option Bytes)
    (originators : List (Bytes × OriginatorEntry))
    (origin_id : Bytes) (seqno ttl flags : Nat) (body : Bytes) :
    Except PyError (Option MeshAction) :=
  if body.length < 12 then Except.ok none
  else
    let dest_id := body.take 8
    let data_seq := unpack_be32 ((body.drop 8).take 4)
    let remainder := body.drop 12
    let associated_data := origin_id ++ dest_id ++ pack_be32 data_seq
    let step1 : Except PyError (Option Bytes) :=
      if flags &&& MESH_FLAG_ENCRYPTED ≠ 0 then
        if remainder.length < 13 then Except.ok none
        else (decrypt (remainder.take 12) (remainder.drop 12) associated_data).map some
      else Except.ok (some remainder)
    match step1 with
    | Except.error e => Except.error e
    | Except.ok none => Except.ok none
    | Except.ok (some bytes0) =>
      let step2 : Option Bytes :=
        if flags &&& MESH_FLAG_COMPRESSED ≠ 0 then decompress bytes0 else some bytes0
      match step2 with
      | none => Except.ok none
      | some app_bytes =>
        if dest_id = node_id then
          Except.ok (some (MeshAction.deliver origin_id dest_id data_seq app_bytes))
        else if ttl ≤ 1 then Except.ok none
        else
          match lookup_best_next_hop originators dest_id with
          | none => Except.ok none
          | some _ =>
            Except.ok (some (MeshAction.send
              (build_mesh_header MESH_MSG_DATA flags (ttl - 1) origin_id seqno ++ body)))

/-- `MeshNode._handle_data_frame` (mesh_node.py, lines 374-458): the
dedup gate first (under `_data_seen_lock`: a present key drops the
frame, an absent key is inserted with timestamp `now`), then the body
handling.  The returned map is the updated `_data_seen`; the dict
insertion persists even when the rest of the handler raises. -/
def handle_data_frame (node_id : Bytes)
    (decrypt : Bytes → Bytes → Bytes → Except PyError Bytes)
    (decompress : Bytes → Option Bytes)
    (originators : List (Bytes × OriginatorEntry))
    (seen : DedupMap) (now : Nat)
    (origin_id : Bytes) (seqno ttl flags : Nat) (body : Bytes) :
    DedupMap × Except PyError (Option MeshAction) :=
  let key := (origin_id, seqno)
  if mapContains seen key then (seen, Except.ok none)
  else
    (mapSet seen key now,
     handle_data_body node_id decrypt decompress originators origin_id seqno ttl flags body)

/-- The dedup-cache part of `MeshNode._cleanup_loop` (mesh_node.py,
lines 503-511): every key with `now - ts > data_seen_expiry` is
deleted, the rest are kept. -/
def cleanup_data_seen (seen : DedupMap) (now expiry : Nat) : DedupMap :=
  seen.filter (fun e => decide (¬ (now - e.2 > expiry)))

/-- The mutable state `_handle_data_frame` / `_handle_ogm` touch. -/
structure NodeState where
  routing : MeshRoutingState
  data_seen : DedupMap
deriving DecidableEq, Repr

/-- `MeshNode._find_info_start` (mesh_node.py, lines 552-556). -/
def find_info_start (frame : Bytes) : Option Nat :=
  if frame.length ≤ 16 then none else some 16

/-- `MeshNode._on_kiss_frame` (mesh_node.py, lines 519-550): the RX
dispatcher.  Parse failures of the mesh header are caught
(`except ValueError: return`); a `version ≠ 1` frame is dropped;
OGM and DATA frames go to their handlers.  Errors raised inside
`_handle_data_frame` propagate. -/
def on_kiss_frame (node_id : Bytes)
    (decrypt : Bytes → Bytes → Bytes → Except PyError Bytes)
    (decompress : Bytes → Option Bytes)
    (st : NodeState) (now : Nat) (frame : Bytes) :
    NodeState × Except PyError (Option MeshAction) :=
  if frame.length ≤ 16 then (st, Except.ok none)
  else
    match find_info_start frame with
    | none => (st, Except.ok none)
    | some istart =>
      let info := frame.drop istart
      match parse_mesh_header info with
      | Except.error _ => (st, Except.ok none)
      | Except.ok (version, msg_type, flags, ttl, origin_id, seqno) =>
        if version ≠ MESH_VERSION then (st, Except.ok none)
        else
          let body := info.drop 16
          if msg_type = MESH_MSG_OGM then
            if body.length < 9 then (st, Except.ok none)
            else
              let r := handle_ogm node_id st.routing now origin_id seqno ttl
                (body.take 8) (body.getD 8 0)
              (⟨r.1, st.data_seen⟩, Except.ok (r.2.map MeshAction.send))
          else if msg_type = MESH_MSG_DATA then
            let r := handle_data_frame node_id decrypt decompress
              st.routing.originators st.data_seen now origin_id seqno ttl flags body
            (⟨st.routing, r.1⟩, r.2)
          else (st, Except.ok none)

/-- Outcome at the KISS RX boundary (`KISSClient._handle_rx_frame`,
kiss_link.py lines 287-295): either the callback returned normally, or a
`ValueError` was caught and logged ("Value error in RX callback; frame
dropped"), or some other exception escaped and would kill the worker. -/
inductive RxFrameResult where
  | ok (act : Option MeshAction)
  | warnedDrop (msg : String)
  | uncaught (e : PyError)
deriving DecidableEq, Repr

/-- `KISSClient._handle_rx_frame` applied to `MeshNode._on_kiss_frame`
as its `rx_callback`: `except ValueError` catches, logs a warning, and
drops; any other exception escapes.  State mutations made before the
exception persist. -/
def handle_rx_frame (node_id : Bytes)
    (decrypt : Bytes → Bytes → Bytes → Except PyError Bytes)
    (decompress : Bytes → Option Bytes)
    (st : NodeState) (now : Nat) (frame : Bytes) :
    NodeState × RxFrameResult :=
  let r := on_kiss_frame node_id decrypt decompress st now frame
  match r.2 with
  | Except.ok a => (r.1, RxFrameResult.ok a)
  | Except.error (PyError.valueError m) => (r.1, RxFrameResult.warnedDrop m)
  | Except.error e => (r.1, RxFrameResult.uncaught e)

/-- Modelled from the spec: `crypto_layer.py` (class `MeshEncryptor`) is
not under src/.  Spec §4.6: `decrypt(nonce, ciphertext‖tag, aad)` "fails
with `AuthFail` on tag mismatch"; spec §7: an AEAD decrypt failure is a
"drop with warning log".  In the code path the only warning-and-drop
boundary is the `except ValueError` handler of
`KISSClient._handle_rx_frame`, so `AuthFail` is modelled as a
`ValueError`. -/
def authFail : PyError := PyError.valueError "AuthFail"

theorem unpack_pack_be32 (n : Nat) (h : n < 2 ^ 32) :
    unpack_be32 (pack_be32 n) = n := by
  simp [pack_be32, unpack_be32, List.getD]
  omega

theorem exists_eight_bytes (l : Bytes) (h : l.length = 8) :
    ∃ b0 b1 b2 b3 b4 b5 b6 b7, l = [b0, b1, b2, b3, b4, b5, b6, b7] := by
  cases l with
  | nil => simp at h
  | cons a0 l =>
  cases l with
  | nil => simp at h
  | cons a1 l =>
  cases l with
  | nil => simp at h
  | cons a2 l =>
  cases l with
  | nil => simp at h
  | cons a3 l =>
  cases l with
  | nil => simp at h
  | cons a4 l =>
  cases l with
  | nil => simp at h
  | cons a5 l =>
  cases l with
  | nil => simp at h
  | cons a6 l =>
  cases l with
  | nil => simp at h
  | cons a7 l =>
  cases l with
  | cons a8 l => simp at h
  | nil => exact ⟨a0, a1, a2, a3, a4, a5, a6, a7, rfl⟩

theorem parse_build_mesh_header (t f ttl : Nat) (oid : Bytes) (sn : Nat)
    (h8 : oid.length = 8) (hsn : sn < 2 ^ 32) :
    parse_mesh_header (build_mesh_header t f ttl oid sn) =
      Except.ok (MESH_VERSION, t, f, ttl, oid, sn) := by
  obtain ⟨b0, b1, b2, b3, b4, b5, b6, b7, rfl⟩ := exists_eight_bytes oid h8
  have hu := unpack_pack_be32 sn hsn
  simp [build_mesh_header, parse_mesh_header, pack_be32] at hu ⊢
  simpa [unpack_be32, List.getD] using hu

/-- C6: for in-range field values, parsing the 16-byte header built from
them returns version 1 together with exactly those field values, and
parsing any input shorter than 16 bytes fails with the short-input
`ValueError`. -/
theorem mesh_header_roundtrip_and_short (t f ttl : Nat) (oid : Bytes) (sn : Nat)
    (ht : t ≤ 255) (hf : f ≤ 255) (httl : ttl ≤ 255)
    (h8 : oid.length = 8) (hsn : sn < 2 ^ 32) :
    parse_mesh_header (build_mesh_header t f ttl oid sn) =
      Except.ok (MESH_VERSION, t, f, ttl, oid, sn) ∧
    (∀ info : Bytes, info.length < 16 →
      parse_mesh_header info = Except.error "info too short for mesh header") := by
  refine ⟨parse_build_mesh_header t f ttl oid sn h8 hsn, ?_⟩
  intro info hshort
  simp [parse_mesh_header, hshort]

/-- Witness for C6 at a concrete header. -/
theorem mesh_header_roundtrip_and_short_witness :
    parse_mesh_header (build_mesh_header 0 3 5 [65, 66, 67, 68, 69, 70, 71, 72] 305419896) =
      Except.ok (MESH_VERSION, 0, 3, 5, [65, 66, 67, 68, 69, 70, 71, 72], 305419896) ∧
    (∀ info : Bytes, info.length < 16 →
      parse_mesh_header info = Except.error "info too short for mesh header") :=
  mesh_header_roundtrip_and_short 0 3 5 [65, 66, 67, 68, 69, 70, 71, 72] 305419896
    (by decide) (by decide) (by decide) (by decide) (by decide)

theorem mapGet_mapSet_self {κ α : Type} [DecidableEq κ] (m : List (κ × α)) (k : κ) (v : α) :
    mapGet (mapSet m k v) k = some v := by
  induction m with
  | nil => simp [mapGet, mapSet]
  | cons p rest ih =>
    obtain ⟨k0, v0⟩ := p
    by_cases h : k0 = k
    · subst h; simp [mapGet, mapSet]
    · simp [mapGet, mapSet, h, ih]

theorem mapGet_mapSet_ne {κ α : Type} [DecidableEq κ] (m : List (κ × α)) (k k' : κ) (v : α)
    (h : k ≠ k') : mapGet (mapSet m k v) k' = mapGet m k' := by
  induction m with
  | nil => simp [mapGet, mapSet, h]
  | cons p rest ih =>
    obtain ⟨k0, v0⟩ := p
    by_cases hk : k0 = k
    · subst hk; simp [mapGet, mapSet, h]
    · simp only [mapSet, if_neg hk]
      by_cases hk' : k0 = k'
      · subst hk'; simp [mapGet]
      · simp [mapGet, hk', ih]

theorem mapGet_eq_none_iff {κ α : Type} [DecidableEq κ] (m : List (κ × α)) (k : κ) :
    mapGet m k = none ↔ ∀ p ∈ m, p.1 ≠ k := by
  induction m with
  | nil => simp [mapGet]
  | cons p rest ih =>
    obtain ⟨k0, v0⟩ := p
    by_cases h : k0 = k
    · subst h; simp [mapGet]
    · simp [mapGet, h, ih]

theorem mapSet_of_absent {κ α : Type} [DecidableEq κ] (m : List (κ × α)) (k : κ) (v : α)
    (h : mapGet m k = none) : mapSet m k v = m ++ [(k, v)] := by
  induction m with
  | nil => simp [mapSet]
  | cons p rest ih =>
    obtain ⟨k0, v0⟩ := p
    by_cases hk : k0 = k
    · subst hk; simp [mapGet] at h
    · simp only [mapGet, if_neg hk] at h
      simp [mapSet, hk, ih h]

theorem mapGet_append_of_none {κ α : Type} [DecidableEq κ] (l1 l2 : List (κ × α)) (k : κ)
    (h : mapGet l1 k = none) : mapGet (l1 ++ l2) k = mapGet l2 k := by
  induction l1 with
  | nil => simp
  | cons p rest ih =>
    obtain ⟨k0, v0⟩ := p
    by_cases hk : k0 = k
    · subst hk; simp [mapGet] at h
    · simp only [mapGet, if_neg hk] at h
      simpa [mapGet, hk] using ih h

theorem mapGet_filter_of_none {κ α : Type} [DecidableEq κ] (p : κ × α → Bool)
    (m : List (κ × α)) (k : κ) (h : mapGet m k = none) :
    mapGet (m.filter p) k = none := by
  induction m with
  | nil => simp [mapGet]
  | cons q rest ih =>
    obtain ⟨k0, v0⟩ := q
    by_cases hk : k0 = k
    · subst hk; simp [mapGet] at h
    · simp only [mapGet, if_neg hk] at h
      rw [List.filter_cons]
      by_cases hp : p (k0, v0) = true
      · simp [hp, mapGet, hk, ih h]
      · simp [hp, ih h]

/-- One OGM reception event, as `_handle_ogm` receives it. -/
structure OgmEvent where
  now : Nat
  origin_id : Bytes
  seqno : Nat
  ttl : Nat
  prev_hop_id : Bytes
  link_metric : Nat

/-- A sequence of OGM receptions processed by `_handle_ogm`, threading
the routing state. -/
def handle_ogm_run (node_id : Bytes) (st : MeshRoutingState) (evs : List OgmEvent) :
    MeshRoutingState :=
  evs.foldl
    (fun s ev =>
      (handle_ogm node_id s ev.now ev.origin_id ev.seqno ev.ttl ev.prev_hop_id
        ev.link_metric).1)
    st

theorem handle_ogm_last_seqno_step (node_id : Bytes) (st : MeshRoutingState) (now : Nat)
    (origin_id : Bytes) (seqno ttl : Nat) (prev_hop_id : Bytes) (link_metric : Nat)
    (oid : Bytes) (e : OriginatorEntry)
    (h : mapGet st.originators oid = some e) :
    ∃ e', mapGet (handle_ogm node_id st now origin_id seqno ttl prev_hop_id
        link_metric).1.originators oid = some e' ∧ e.last_seqno ≤ e'.last_seqno := by
  simp only [handle_ogm]
  by_cases horig : origin_id = oid
  · subst horig
    rw [h]
    by_cases hgt : seqno > e.last_seqno
    · exact ⟨⟨prev_hop_id, seqno, link_metric, now⟩,
        by simp [hgt, mapGet_mapSet_self], Nat.le_of_lt hgt⟩
    · exact ⟨e, by simp [hgt, h], Nat.le_refl _⟩
  · cases hm : mapGet st.originators origin_id with
    | none => exact ⟨e, by simp [mapGet_mapSet_ne _ _ _ _ horig, h], Nat.le_refl _⟩
    | some e0 =>
      by_cases hgt : seqno > e0.last_seqno
      · exact ⟨e, by simp [hgt, mapGet_mapSet_ne _ _ _ _ horig, h], Nat.le_refl _⟩
      · exact ⟨e, by simp [hgt, h], Nat.le_refl _⟩

theorem handle_ogm_run_last_seqno_mono (node_id : Bytes) (evs : List OgmEvent) :
    ∀ (st : MeshRoutingState) (oid : Bytes) (e : OriginatorEntry),
      mapGet st.originators oid = some e →
      ∃ e', mapGet (handle_ogm_run node_id st evs).originators oid = some e' ∧
        e.last_seqno ≤ e'.last_seqno := by
  induction evs with
  | nil => exact fun st oid e h => ⟨e, h, Nat.le_refl _⟩
  | cons ev rest ih =>
    intro st oid e h
    obtain ⟨e1, h1, hle1⟩ := handle_ogm_last_seqno_step node_id st ev.now ev.origin_id
      ev.seqno ev.ttl ev.prev_hop_id ev.link_metric oid e h
    obtain ⟨e2, h2, hle2⟩ := ih _ oid e1 h1
    exact ⟨e2, h2, Nat.le_trans hle1 hle2⟩

/-- C5: an originator entry is replaced (with `last_seen` refreshed) only
when absent or when the OGM carries a strictly greater seqno; on
`seqno ≤ stored.last_seqno` the stored map is untouched; consequently the
stored `last_seqno` of any originator never decreases across any sequence
of OGM receptions. -/
theorem ogm_originator_update_policy
    (node_id : Bytes) (st : MeshRoutingState) (now : Nat)
    (origin_id : Bytes) (seqno ttl : Nat) (prev_hop_id : Bytes) (link_metric : Nat) :
    (mapGet st.originators origin_id = none →
      (handle_ogm node_id st now origin_id seqno ttl prev_hop_id
          link_metric).1.originators =
        mapSet st.originators origin_id ⟨prev_hop_id, seqno, link_metric, now⟩) ∧
    (∀ e, mapGet st.originators origin_id = some e → e.last_seqno < seqno →
      (handle_ogm node_id st now origin_id seqno ttl prev_hop_id
          link_metric).1.originators =
        mapSet st.originators origin_id ⟨prev_hop_id, seqno, link_metric, now⟩) ∧
    (∀ e, mapGet st.originators origin_id = some e → seqno ≤ e.last_seqno →
      (handle_ogm node_id st now origin_id seqno ttl prev_hop_id
          link_metric).1.originators = st.originators) ∧
    (∀ (evs : List OgmEvent) (oid : Bytes) (e : OriginatorEntry),
      mapGet st.originators oid = some e →
      ∃ e', mapGet (handle_ogm_run node_id st evs).originators oid = some e' ∧
        e.last_seqno ≤ e'.last_seqno) := by
  refine ⟨?_, ?_, ?_, ?_⟩
  · intro h; simp [handle_ogm, h]
  · intro e h hgt; simp [handle_ogm, h, hgt]
  · intro e h hle; simp [handle_ogm, h, Nat.not_lt.mpr hle]
  · intro evs oid e h; exact handle_ogm_run_last_seqno_mono node_id evs st oid e h

/-- Witness for C5 at concrete states: an absent key is inserted, a
strictly greater seqno replaces, a smaller-or-equal seqno leaves the map
untouched, and a run of stale OGMs never lowers the stored seqno. -/
theorem ogm_originator_update_policy_witness :
    ((handle_ogm [65] ⟨[], []⟩ 100 [66] 7 5 [67] 9).1.originators =
      mapSet [] [66] ⟨[67], 7, 9, 100⟩) ∧
    ((handle_ogm [65] ⟨[([66], ⟨[68], 5, 3, 50⟩)], []⟩ 100 [66] 7 5 [67] 9).1.originators =
      mapSet [([66], ⟨[68], 5, 3, 50⟩)] [66] ⟨[67], 7, 9, 100⟩) ∧
    ((handle_ogm [65] ⟨[([66], ⟨[68], 5, 3, 50⟩)], []⟩ 100 [66] 5 5 [67] 9).1.originators =
      [([66], ⟨[68], 5, 3, 50⟩)]) ∧
    (∃ e', mapGet (handle_ogm_run [65] ⟨[([66], ⟨[68], 5, 3, 50⟩)], []⟩
        [⟨100, [66], 2, 5, [67], 9⟩]).originators [66] = some e' ∧ 5 ≤ e'.last_seqno) := by
  refine ⟨?_, ?_, ?_, ?_⟩
  · exact (ogm_originator_update_policy [65] ⟨[], []⟩ 100 [66] 7 5 [67] 9).1 rfl
  · exact (ogm_originator_update_policy [65] ⟨[([66], ⟨[68], 5, 3, 50⟩)], []⟩ 100
      [66] 7 5 [67] 9).2.1 ⟨[68], 5, 3, 50⟩ rfl (by decide)
  · exact (ogm_originator_update_policy [65] ⟨[([66], ⟨[68], 5, 3, 50⟩)], []⟩ 100
      [66] 5 5 [67] 9).2.2.1 ⟨[68], 5, 3, 50⟩ rfl (by decide)
  · exact (ogm_originator_update_policy [65] ⟨[([66], ⟨[68], 5, 3, 50⟩)], []⟩ 100
      [66] 5 5 [67] 9).2.2.2 [⟨100, [66], 2, 5, [67], 9⟩] [66] ⟨[68], 5, 3, 50⟩ rfl

theorem build_mesh_header_length (t f ttl : Nat) (oid : Bytes) (sn : Nat)
    (h8 : oid.length = 8) : (build_mesh_header t f ttl oid sn).length = 16 := by
  simp [build_mesh_header, pack_be32, h8]

theorem drop16_build_mesh_header_append (t f ttl : Nat) (oid : Bytes) (sn : Nat)
    (rest : Bytes) (h8 : oid.length = 8) :
    (build_mesh_header t f ttl oid sn ++ rest).drop 16 = rest :=
  List.drop_left' (build_mesh_header_length t f ttl oid sn h8)

theorem parse_mesh_header_append (t f ttl : Nat) (oid : Bytes) (sn : Nat) (rest : Bytes)
    (h8 : oid.length = 8) (hsn : sn < 2 ^ 32) :
    parse_mesh_header (build_mesh_header t f ttl oid sn ++ rest) =
      Except.ok (MESH_VERSION, t, f, ttl, oid, sn) := by
  have hlen : ¬ ((build_mesh_header t f ttl oid sn ++ rest).length < 16) := by
    simp [build_mesh_header, pack_be32, h8]
    omega
  obtain ⟨b0, b1, b2, b3, b4, b5, b6, b7, rfl⟩ := exists_eight_bytes oid h8
  have hu := unpack_pack_be32 sn hsn
  simp only [parse_mesh_header, if_neg hlen]
  simp [build_mesh_header, pack_be32] at hu ⊢
  simpa [unpack_be32, List.getD] using hu

theorem handle_data_body_send_inv (node_id : Bytes)
    (decrypt : Bytes → Bytes → Bytes → Except PyError Bytes)
    (decompress : Bytes → Option Bytes)
    (originators : List (Bytes × OriginatorEntry))
    (origin_id : Bytes) (seqno ttl flags : Nat) (body : Bytes) (p : Bytes)
    (h : handle_data_body node_id decrypt decompress originators origin_id seqno ttl
        flags body = Except.ok (some (MeshAction.send p))) :
    2 ≤ ttl ∧ p = build_mesh_header MESH_MSG_DATA flags (ttl - 1) origin_id seqno ++ body := by
  simp only [handle_data_body] at h
  repeat' split at h
  all_goals simp_all
  all_goals omega

theorem handle_data_frame_send_inv (node_id : Bytes)
    (decrypt : Bytes → Bytes → Bytes → Except PyError Bytes)
    (decompress : Bytes → Option Bytes)
    (originators : List (Bytes × OriginatorEntry))
    (seen : DedupMap) (now : Nat)
    (origin_id : Bytes) (seqno ttl flags : Nat) (body : Bytes) (p : Bytes)
    (h : (handle_data_frame node_id decrypt decompress originators seen now
        origin_id seqno ttl flags body).2 = Except.ok (some (MeshAction.send p))) :
    2 ≤ ttl ∧ p = build_mesh_header MESH_MSG_DATA flags (ttl - 1) origin_id seqno ++ body := by
  simp only [handle_data_frame] at h
  split at h
  · simp at h
  · exact handle_data_body_send_inv node_id decrypt decompress originators origin_id
      seqno ttl flags body p h

theorem handle_ogm_fwd_inv (node_id : Bytes) (st : MeshRoutingState) (now : Nat)
    (origin_id : Bytes) (seqno ttl : Nat) (prev_hop_id : Bytes) (link_metric : Nat)
    (p : Bytes)
    (h : (handle_ogm node_id st now origin_id seqno ttl prev_hop_id link_metric).2 =
      some p) :
    2 ≤ ttl ∧
      p = build_mesh_header MESH_MSG_OGM 0 (ttl - 1) origin_id seqno ++
        (node_id ++ [link_metric]) := by
  simp only [handle_ogm] at h
  split at h
  · next hgt => exact ⟨hgt, by simpa using h.symm⟩
  · simp at h

/-- C4: a DATA or OGM frame arriving with `ttl ≤ 1` is never forwarded;
every forwarded payload carries a mesh header with `ttl - 1 ≥ 1` and
unchanged version, msg_type, origin_id and seqno (flags unchanged for
DATA), and for DATA the forwarded body bytes are byte-identical to the
received body. -/
theorem ttl_monotonic_forwarding
    (node_id : Bytes)
    (decrypt : Bytes → Bytes → Bytes → Except PyError Bytes)
    (decompress : Bytes → Option Bytes)
    (originators : List (Bytes × OriginatorEntry))
    (st : MeshRoutingState)
    (seen : DedupMap) (now : Nat)
    (origin_id : Bytes) (seqno ttl flags : Nat) (body : Bytes)
    (prev_hop_id : Bytes) (link_metric : Nat)
    (h8 : origin_id.length = 8) (hsn : seqno < 2 ^ 32) :
    (ttl ≤ 1 → ∀ p, (handle_data_frame node_id decrypt decompress originators seen now
        origin_id seqno ttl flags body).2 ≠ Except.ok (some (MeshAction.send p))) ∧
    (∀ p, (handle_data_frame node_id decrypt decompress originators seen now
        origin_id seqno ttl flags body).2 = Except.ok (some (MeshAction.send p)) →
      2 ≤ ttl ∧
      parse_mesh_header p =
        Except.ok (MESH_VERSION, MESH_MSG_DATA, flags, ttl - 1, origin_id, seqno) ∧
      p.drop 16 = body) ∧
    (ttl ≤ 1 →
      (handle_ogm node_id st now origin_id seqno ttl prev_hop_id link_metric).2 = none) ∧
    (∀ p, (handle_ogm node_id st now origin_id seqno ttl prev_hop_id link_metric).2 =
        some p →
      2 ≤ ttl ∧
      parse_mesh_header p =
        Except.ok (MESH_VERSION, MESH_MSG_OGM, 0, ttl - 1, origin_id, seqno) ∧
      p.drop 16 = node_id ++ [link_metric]) := by
  refine ⟨?_, ?_, ?_, ?_⟩
  · intro httl p h
    obtain ⟨h2, -⟩ := handle_data_frame_send_inv node_id decrypt decompress originators
      seen now origin_id seqno ttl flags body p h
    omega
  · intro p h
    obtain ⟨h2, rfl⟩ := handle_data_frame_send_inv node_id decrypt decompress originators
      seen now origin_id seqno ttl flags body p h
    exact ⟨h2, parse_mesh_header_append _ _ _ _ _ _ h8 hsn,
      drop16_build_mesh_header_append _ _ _ _ _ _ h8⟩
  · intro httl
    simp only [handle_ogm]
    rw [if_neg (by omega)]
  · intro p h
    obtain ⟨h2, rfl⟩ := handle_ogm_fwd_inv node_id st now origin_id seqno ttl prev_hop_id
      link_metric p h
    exact ⟨h2, parse_mesh_header_append _ _ _ _ _ _ h8 hsn,
      drop16_build_mesh_header_append _ _ _ _ _ _ h8⟩

/-- Concrete node ids used by the witnesses: "AAAAAAAA", "BBBBBBBB",
"CCCCCCCC". -/
def nodeA : Bytes := List.replicate 8 65

def nodeB : Bytes := List.replicate 8 66

def nodeC : Bytes := List.replicate 8 67

/-- A concrete originator table routing `nodeC` via `nodeB`. -/
def origsToC : List (Bytes × OriginatorEntry) := [(nodeC, ⟨nodeB, 1, 255, 0⟩)]

/-- A concrete DATA body addressed to `nodeC` with data seqno 7. -/
def bodyToC : Bytes := nodeC ++ pack_be32 7 ++ [9, 9, 9]

/-- Witness for C4 at a concrete forwarded DATA frame and a concrete
OGM, both with ttl 5, plus the never-forward conclusions at ttl 1. -/
theorem ttl_monotonic_forwarding_witness :
    ((1 : Nat) ≤ 1 → ∀ p, (handle_data_frame nodeA (fun _ _ _ => Except.error authFail)
        (fun b => some b) origsToC [] 100 nodeB 7 1 0 bodyToC).2 ≠
        Except.ok (some (MeshAction.send p))) ∧
    (∀ p, (handle_data_frame nodeA (fun _ _ _ => Except.error authFail)
        (fun b => some b) origsToC [] 100 nodeB 7 5 0 bodyToC).2 =
        Except.ok (some (MeshAction.send p)) →
      2 ≤ 5 ∧
      parse_mesh_header p =
        Except.ok (MESH_VERSION, MESH_MSG_DATA, 0, 4, nodeB, 7) ∧
      p.drop 16 = bodyToC) := by
  constructor
  · exact (ttl_monotonic_forwarding nodeA (fun _ _ _ => Except.error authFail)
      (fun b => some b) origsToC ⟨[], []⟩ [] 100 nodeB 7 1 0 bodyToC nodeC 9
      (by decide) (by decide)).1
  · exact (ttl_monotonic_forwarding nodeA (fun _ _ _ => Except.error authFail)
      (fun b => some b) origsToC ⟨[], []⟩ [] 100 nodeB 7 5 0 bodyToC nodeC 9
      (by decide) (by decide)).2.1

theorem mapContains_eq_false_iff {κ α : Type} [DecidableEq κ] (m : List (κ × α)) (k : κ) :
    mapContains m k = false ↔ mapGet m k = none := by
  cases h : mapGet m k <;> simp [mapContains, h]

theorem mapContains_mapSet_self {κ α : Type} [DecidableEq κ] (m : List (κ × α)) (k : κ)
    (v : α) : mapContains (mapSet m k v) k = true := by
  simp [mapContains, mapGet_mapSet_self]

theorem handle_data_frame_of_contains (node_id : Bytes)
    (decrypt : Bytes → Bytes → Bytes → Except PyError Bytes)
    (decompress : Bytes → Option Bytes)
    (originators : List (Bytes × OriginatorEntry))
    (seen : DedupMap) (now : Nat)
    (origin_id : Bytes) (seqno ttl flags : Nat) (body : Bytes)
    (hs : mapContains seen (origin_id, seqno) = true) :
    handle_data_frame node_id decrypt decompress originators seen now origin_id seqno ttl
      flags body = (seen, Except.ok none) := by
  simp [handle_data_frame, hs]

theorem cleanup_keeps_fresh_key (seen : DedupMap) (key : Bytes × Nat) (n0 n1 expiry : Nat)
    (hfresh : mapGet seen key = none) (hwithin : n1 - n0 ≤ expiry) :
    mapGet (cleanup_data_seen (mapSet seen key n0) n1 expiry) key = some n0 := by
  rw [mapSet_of_absent seen key n0 hfresh]
  unfold cleanup_data_seen
  rw [List.filter_append]
  have hkeep : List.filter (fun e => decide (¬ (n1 - e.2 > expiry))) [(key, n0)] =
      [(key, n0)] := by
    simp [List.filter_cons]
    omega
  rw [hkeep, mapGet_append_of_none _ _ _
    (mapGet_filter_of_none _ _ _ hfresh)]
  simp [mapGet]

/-- C3: the dedup gate of `_handle_data_frame` under `_data_seen_lock`:
a present `(origin_id, seqno)` key causes a silent drop with the cache
unchanged, an absent key is inserted with the current timestamp; hence
feeding the same DATA frame bytes twice within `data_seen_expiry`
(even with a cleanup sweep in between) yields a silent drop the second
time, so at most one application-callback invocation. -/
theorem data_dedup_idempotent_intake
    (node_id : Bytes)
    (decrypt : Bytes → Bytes → Bytes → Except PyError Bytes)
    (decompress : Bytes → Option Bytes)
    (originators : List (Bytes × OriginatorEntry))
    (seen : DedupMap) (n0 n1 n2 expiry : Nat)
    (origin_id : Bytes) (seqno ttl flags : Nat) (body : Bytes)
    (hfresh : mapContains seen (origin_id, seqno) = false)
    (hwithin : n1 - n0 ≤ expiry) :
    (∀ s : DedupMap, mapContains s (origin_id, seqno) = true →
      handle_data_frame node_id decrypt decompress originators s n0 origin_id seqno ttl
        flags body = (s, Except.ok none)) ∧
    (handle_data_frame node_id decrypt decompress originators seen n0 origin_id seqno ttl
        flags body).1 = mapSet seen (origin_id, seqno) n0 ∧
    handle_data_frame node_id decrypt decompress originators
        (cleanup_data_seen (handle_data_frame node_id decrypt decompress originators seen
          n0 origin_id seqno ttl flags body).1 n1 expiry)
        n2 origin_id seqno ttl flags body =
      (cleanup_data_seen (handle_data_frame node_id decrypt decompress originators seen
          n0 origin_id seqno ttl flags body).1 n1 expiry, Except.ok none) := by
  have hnone : mapGet seen (origin_id, seqno) = none :=
    (mapContains_eq_false_iff seen (origin_id, seqno)).mp hfresh
  have hgate : ∀ s : DedupMap, mapContains s (origin_id, seqno) = true →
      handle_data_frame node_id decrypt decompress originators s n0 origin_id seqno ttl
        flags body = (s, Except.ok none) := by
    intro s hs
    simp [handle_data_frame, hs]
  have hins : (handle_data_frame node_id decrypt decompress originators seen n0 origin_id
      seqno ttl flags body).1 = mapSet seen (origin_id, seqno) n0 := by
    simp [handle_data_frame, hfresh]
  refine ⟨hgate, hins, ?_⟩
  rw [hins]
  have hkept : mapGet (cleanup_data_seen (mapSet seen (origin_id, seqno) n0) n1 expiry)
      (origin_id, seqno) = some n0 :=
    cleanup_keeps_fresh_key seen (origin_id, seqno) n0 n1 expiry hnone hwithin
  have hcont : mapContains (cleanup_data_seen (mapSet seen (origin_id, seqno) n0) n1
      expiry) (origin_id, seqno) = true := by
    simp [mapContains, hkept]
  simp [handle_data_frame, hcont]

/-- Witness for C3: the same concrete DATA frame fed twice, with a
cleanup sweep 20 s later and a 30 s expiry in between: the second feed
is a silent drop with the cache unchanged. -/
theorem data_dedup_idempotent_intake_witness :
    (∀ s : DedupMap, mapContains s (nodeB, 7) = true →
      handle_data_frame nodeA (fun _ _ _ => Except.error authFail) (fun b => some b)
        origsToC s 100 nodeB 7 5 0 bodyToC = (s, Except.ok none)) ∧
    (handle_data_frame nodeA (fun _ _ _ => Except.error authFail) (fun b => some b)
        origsToC [] 100 nodeB 7 5 0 bodyToC).1 = mapSet [] (nodeB, 7) 100 ∧
    handle_data_frame nodeA (fun _ _ _ => Except.error authFail) (fun b => some b)
        origsToC
        (cleanup_data_seen (handle_data_frame nodeA (fun _ _ _ => Except.error authFail)
          (fun b => some b) origsToC [] 100 nodeB 7 5 0 bodyToC).1 120 30)
        130 nodeB 7 5 0 bodyToC =
      (cleanup_data_seen (handle_data_frame nodeA (fun _ _ _ => Except.error authFail)
          (fun b => some b) origsToC [] 100 nodeB 7 5 0 bodyToC).1 120 30,
        Except.ok none) :=
  data_dedup_idempotent_intake nodeA (fun _ _ _ => Except.error authFail)
    (fun b => some b) origsToC [] 100 120 130 30 nodeB 7 5 0 bodyToC
    (by decide) (by decide)

/-- C10: on DATA reception the `(origin_id, seqno)` key is inserted
before any body validation, decryption or decompression: any first
frame with a fresh key leaves the key in the cache (whatever its body,
flags, or the outcome of decrypt/decompress), a body shorter than 12
bytes is dropped after that insert, and a later well-formed frame with
the same key is dropped as a duplicate instead of being delivered or
forwarded. -/
theorem dedup_key_consumed_before_validation
    (node_id : Bytes)
    (decrypt decrypt2 : Bytes → Bytes → Bytes → Except PyError Bytes)
    (decompress decompress2 : Bytes → Option Bytes)
    (originators originators2 : List (Bytes × OriginatorEntry))
    (seen : DedupMap) (n0 n2 : Nat)
    (origin_id : Bytes) (seqno ttl1 flags1 : Nat) (body1 : Bytes)
    (ttl2 flags2 : Nat) (body2 : Bytes)
    (hfresh : mapContains seen (origin_id, seqno) = false) :
    mapContains (handle_data_frame node_id decrypt decompress originators seen n0
      origin_id seqno ttl1 flags1 body1).1 (origin_id, seqno) = true ∧
    (body1.length < 12 →
      (handle_data_frame node_id decrypt decompress originators seen n0 origin_id seqno
        ttl1 flags1 body1).2 = Except.ok none) ∧
    handle_data_frame node_id decrypt2 decompress2 originators2
        (handle_data_frame node_id decrypt decompress originators seen n0 origin_id seqno
          ttl1 flags1 body1).1 n2 origin_id seqno ttl2 flags2 body2 =
      ((handle_data_frame node_id decrypt decompress originators seen n0 origin_id seqno
          ttl1 flags1 body1).1, Except.ok none) := by
  have hins : (handle_data_frame node_id decrypt decompress originators seen n0 origin_id
      seqno ttl1 flags1 body1).1 = mapSet seen (origin_id, seqno) n0 := by
    simp [handle_data_frame, hfresh]
  have hcont : mapContains (handle_data_frame node_id decrypt decompress originators seen
      n0 origin_id seqno ttl1 flags1 body1).1 (origin_id, seqno) = true := by
    rw [hins]; exact mapContains_mapSet_self seen (origin_id, seqno) n0
  refine ⟨hcont, ?_, ?_⟩
  · intro hshort
    simp [handle_data_frame, hfresh, handle_data_body, hshort]
  · exact handle_data_frame_of_contains node_id decrypt2 decompress2 originators2 _ n2
      origin_id seqno ttl2 flags2 body2 hcont

/-- Witness for C10: a malformed 3-byte DATA body consumes the dedup key
and the later well-formed frame with the same `(origin_id, seqno)` is
dropped. -/
theorem dedup_key_consumed_before_validation_witness :
    mapContains (handle_data_frame nodeA (fun _ _ _ => Except.error authFail)
      (fun b => some b) origsToC [] 100 nodeB 7 5 0 [0, 1, 2]).1 (nodeB, 7) = true ∧
    (([0, 1, 2] : Bytes).length < 12 →
      (handle_data_frame nodeA (fun _ _ _ => Except.error authFail) (fun b => some b)
        origsToC [] 100 nodeB 7 5 0 [0, 1, 2]).2 = Except.ok none) ∧
    handle_data_frame nodeA (fun _ _ _ => Except.error authFail) (fun b => some b)
        origsToC
        (handle_data_frame nodeA (fun _ _ _ => Except.error authFail) (fun b => some b)
          origsToC [] 100 nodeB 7 5 0 [0, 1, 2]).1 130 nodeB 7 5 0 bodyToC =
      ((handle_data_frame nodeA (fun _ _ _ => Except.error authFail) (fun b => some b)
          origsToC [] 100 nodeB 7 5 0 [0, 1, 2]).1, Except.ok none) :=
  dedup_key_consumed_before_validation nodeA (fun _ _ _ => Except.error authFail)
    (fun _ _ _ => Except.error authFail) (fun b => some b) (fun b => some b)
    origsToC origsToC [] 100 130 nodeB 7 5 0 [0, 1, 2] 5 0 bodyToC (by decide)

theorem handle_data_frame_aead_failure (node_id : Bytes)
    (decrypt : Bytes → Bytes → Bytes → Except PyError Bytes)
    (decompress : Bytes → Option Bytes)
    (originators : List (Bytes × OriginatorEntry))
    (seen : DedupMap) (now : Nat)
    (origin_id : Bytes) (seqno ttl flags : Nat) (body : Bytes) (e : PyError)
    (henc : flags &&& MESH_FLAG_ENCRYPTED ≠ 0)
    (hbody : 25 ≤ body.length)
    (hfresh : mapContains seen (origin_id, seqno) = false)
    (hdec : decrypt ((body.drop 12).take 12) ((body.drop 12).drop 12)
        (origin_id ++ body.take 8 ++ pack_be32 (unpack_be32 ((body.drop 8).take 4))) =
      Except.error e) :
    handle_data_frame node_id decrypt decompress originators seen now origin_id seqno ttl
        flags body = (mapSet seen (origin_id, seqno) now, Except.error e) := by
  have hfresh' : ¬ (mapContains seen (origin_id, seqno) = true) := by simp [hfresh]
  have h12 : ¬ (body.length < 12) := by omega
  have h13 : ¬ ((body.drop 12).length < 13) := by
    simp only [List.length_drop]
    omega
  simp only [handle_data_frame, handle_data_body]
  rw [if_neg hfresh', if_neg h12, if_pos henc, if_neg h13, hdec]
  simp [Except.map]

/-- C1: a received DATA frame with the ENCRYPTED flag whose AEAD
authentication fails (spec-modelled `AuthFail`, a ValueError) is
dropped at the KISS RX boundary with the warning log of
`KISSClient._handle_rx_frame`: the application callback is not invoked,
nothing is forwarded, only the dedup key is added to the node state,
and the RX worker survives because the error is caught there. -/
theorem aead_failure_dropped_with_warning
    (node_id : Bytes)
    (decrypt : Bytes → Bytes → Bytes → Except PyError Bytes)
    (decompress : Bytes → Option Bytes)
    (st : NodeState) (now : Nat) (pre : Bytes)
    (origin_id : Bytes) (seqno ttl flags : Nat) (body : Bytes) (m : String)
    (hpre : pre.length = 16)
    (h8 : origin_id.length = 8) (hsn : seqno < 2 ^ 32)
    (henc : flags &&& MESH_FLAG_ENCRYPTED ≠ 0)
    (hbody : 25 ≤ body.length)
    (hfresh : mapContains st.data_seen (origin_id, seqno) = false)
    (hdec : decrypt ((body.drop 12).take 12) ((body.drop 12).drop 12)
        (origin_id ++ body.take 8 ++ pack_be32 (unpack_be32 ((body.drop 8).take 4))) =
      Except.error (PyError.valueError m)) :
    handle_rx_frame node_id decrypt decompress st now
        (pre ++ (build_mesh_header MESH_MSG_DATA flags ttl origin_id seqno ++ body)) =
      (⟨st.routing, mapSet st.data_seen (origin_id, seqno) now⟩,
        RxFrameResult.warnedDrop m) := by
  have hdr16 : (build_mesh_header MESH_MSG_DATA flags ttl origin_id seqno).length = 16 :=
    build_mesh_header_length _ _ _ _ _ h8
  have hflen : ¬ ((pre ++ (build_mesh_header MESH_MSG_DATA flags ttl origin_id seqno ++
      body)).length ≤ 16) := by
    simp only [List.length_append, hpre, hdr16]
    omega
  have hinfo : (pre ++ (build_mesh_header MESH_MSG_DATA flags ttl origin_id seqno ++
      body)).drop 16 = build_mesh_header MESH_MSG_DATA flags ttl origin_id seqno ++ body :=
    List.drop_left' hpre
  have hparse := parse_mesh_header_append MESH_MSG_DATA flags ttl origin_id seqno body
    h8 hsn
  have hbodyeq := drop16_build_mesh_header_append MESH_MSG_DATA flags ttl origin_id seqno
    body h8
  have hdfr := handle_data_frame_aead_failure node_id decrypt decompress
    st.routing.originators st.data_seen now origin_id seqno ttl flags body
    (PyError.valueError m) henc hbody hfresh hdec
  simp only [MESH_MSG_DATA] at hinfo hparse hbodyeq hdfr hdr16 hflen
  have hflen' : ¬ (pre.length + ((build_mesh_header 0 flags ttl origin_id seqno).length +
      body.length) ≤ 16) := by
    rw [hpre, hdr16]
    omega
  simp [handle_rx_frame, on_kiss_frame, find_info_start, hflen, hflen', hinfo, hparse,
    hbodyeq, hdfr, MESH_VERSION, MESH_MSG_DATA, MESH_MSG_OGM]

/-- Concrete 25-byte encrypted DATA body used by the C1 witness. -/
def encBodyToC : Bytes := nodeC ++ pack_be32 7 ++ List.replicate 13 0

/-- Witness for C1: a concrete encrypted frame whose decrypt fails with
`AuthFail` ends as a warned drop at the RX boundary, with only the
dedup key added. -/
theorem aead_failure_dropped_with_warning_witness :
    handle_rx_frame nodeA (fun _ _ _ => Except.error authFail) (fun b => some b)
        ⟨⟨[], []⟩, []⟩ 100
        (List.replicate 16 0 ++
          (build_mesh_header MESH_MSG_DATA 2 5 nodeB 7 ++ encBodyToC)) =
      (⟨⟨[], []⟩, mapSet [] (nodeB, 7) 100⟩, RxFrameResult.warnedDrop "AuthFail") :=
  aead_failure_dropped_with_warning nodeA (fun _ _ _ => Except.error authFail)
    (fun b => some b) ⟨⟨[], []⟩, []⟩ 100 (List.replicate 16 0) nodeB 7 5 2 encBodyToC
    "AuthFail" (by decide) (by decide) (by decide) (by decide) (by decide) (by decide)
    rfl

/-- The `payload_to_send` choice inside `MeshNode._build_data_payload`
(mesh_node.py, lines 344-349): the DEFLATE-compressed form when it is
strictly shorter than the input, else the original payload. -/
def data_payload_to_send (compress : Bytes → Bytes) (app_payload : Bytes) : Bytes :=
  if (compress app_payload).length < app_payload.length then compress app_payload
  else app_payload

/-- `MeshNode._build_data_payload` (mesh_node.py, lines 336-372), with
`zlib.compress` and `MeshEncryptor.encrypt` (returning the pair
`(nonce, ciphertext)`) as parameters. -/
def build_data_payload (node_id : Bytes) (compress : Bytes → Bytes)
    (encryption_enabled : Bool) (encrypt : Bytes → Bytes → Bytes × Bytes)
    (ogm_ttl : Nat) (dest_id : Bytes) (data_seqno : Nat) (app_payload : Bytes) : Bytes :=
  let flags0 : Nat :=
    if (compress app_payload).length < app_payload.length then 0 ||| MESH_FLAG_COMPRESSED
    else 0
  let pts := data_payload_to_send compress app_payload
  let associated_data := node_id ++ dest_id ++ pack_be32 data_seqno
  let bodyFlags : Bytes × Nat :=
    if encryption_enabled then
      ((dest_id ++ pack_be32 data_seqno) ++
        ((encrypt pts associated_data).1 ++ (encrypt pts associated_data).2),
        flags0 ||| MESH_FLAG_ENCRYPTED)
    else ((dest_id ++ pack_be32 data_seqno) ++ pts, flags0)
  build_mesh_header MESH_MSG_DATA bodyFlags.2 ogm_ttl node_id data_seqno ++ bodyFlags.1

theorem build_mesh_header_append_getD2 (t f ttl : Nat) (oid : Bytes) (sn : Nat)
    (rest : Bytes) : (build_mesh_header t f ttl oid sn ++ rest).getD 2 0 = f := by
  simp [build_mesh_header, List.getD]

theorem build_data_payload_plain (node_id : Bytes) (compress : Bytes → Bytes)
    (encrypt : Bytes → Bytes → Bytes × Bytes) (ogm_ttl : Nat) (dest_id : Bytes)
    (data_seqno : Nat) (app_payload : Bytes) :
    build_data_payload node_id compress false encrypt ogm_ttl dest_id data_seqno
        app_payload =
      build_mesh_header MESH_MSG_DATA
        (if (compress app_payload).length < app_payload.length then
          0 ||| MESH_FLAG_COMPRESSED else 0)
        ogm_ttl node_id data_seqno ++
      ((dest_id ++ pack_be32 data_seqno) ++ data_payload_to_send compress app_payload) :=
  rfl

theorem build_data_payload_enc (node_id : Bytes) (compress : Bytes → Bytes)
    (encrypt : Bytes → Bytes → Bytes × Bytes) (ogm_ttl : Nat) (dest_id : Bytes)
    (data_seqno : Nat) (app_payload : Bytes) :
    build_data_payload node_id compress true encrypt ogm_ttl dest_id data_seqno
        app_payload =
      build_mesh_header MESH_MSG_DATA
        ((if (compress app_payload).length < app_payload.length then
          0 ||| MESH_FLAG_COMPRESSED else 0) ||| MESH_FLAG_ENCRYPTED)
        ogm_ttl node_id data_seqno ++
      ((dest_id ++ pack_be32 data_seqno) ++
        ((encrypt (data_payload_to_send compress app_payload)
            (node_id ++ dest_id ++ pack_be32 data_seqno)).1 ++
          (encrypt (data_payload_to_send compress app_payload)
            (node_id ++ dest_id ++ pack_be32 data_seqno)).2)) :=
  rfl

/-- C7: building a DATA payload sets the COMPRESSED flag iff the
compressed form is strictly shorter than the payload, and the body
before optional encryption carries the compressed bytes in that case
and the original bytes otherwise (without encryption they follow the
28-byte header-plus-dest-plus-seqno prefix verbatim; with encryption
they are what the encryptor is applied to). -/
theorem compression_discipline
    (node_id : Bytes) (compress : Bytes → Bytes) (encryption_enabled : Bool)
    (encrypt : Bytes → Bytes → Bytes × Bytes) (ogm_ttl : Nat)
    (dest_id : Bytes) (data_seqno : Nat) (app_payload : Bytes)
    (h8n : node_id.length = 8) (h8d : dest_id.length = 8) :
    ((build_data_payload node_id compress encryption_enabled encrypt ogm_ttl dest_id
        data_seqno app_payload).getD 2 0 &&& MESH_FLAG_COMPRESSED ≠ 0 ↔
      (compress app_payload).length < app_payload.length) ∧
    (data_payload_to_send compress app_payload =
      if (compress app_payload).length < app_payload.length then compress app_payload
      else app_payload) ∧
    (encryption_enabled = false →
      (build_data_payload node_id compress encryption_enabled encrypt ogm_ttl dest_id
        data_seqno app_payload).drop 28 = data_payload_to_send compress app_payload) ∧
    (encryption_enabled = true →
      (build_data_payload node_id compress encryption_enabled encrypt ogm_ttl dest_id
        data_seqno app_payload).drop 28 =
      (encrypt (data_payload_to_send compress app_payload)
        (node_id ++ dest_id ++ pack_be32 data_seqno)).1 ++
      (encrypt (data_payload_to_send compress app_payload)
        (node_id ++ dest_id ++ pack_be32 data_seqno)).2) := by
  have hpre12 : (dest_id ++ pack_be32 data_seqno).length = 12 := by
    simp [pack_be32, h8d]
  have h2812 : ∀ X : Bytes, X.drop 28 = (X.drop 16).drop 12 := by
    intro X
    rw [List.drop_drop]
  have hdrop : ∀ (f : Nat) (rest : Bytes),
      (build_mesh_header MESH_MSG_DATA f ogm_ttl node_id data_seqno ++
        ((dest_id ++ pack_be32 data_seqno) ++ rest)).drop 28 = rest := by
    intro f rest
    have h16 := build_mesh_header_length MESH_MSG_DATA f ogm_ttl node_id data_seqno h8n
    rw [h2812, List.drop_left' h16, List.drop_left' hpre12]
  refine ⟨?_, rfl, ?_, ?_⟩
  · cases encryption_enabled with
    | false =>
      rw [build_data_payload_plain, build_mesh_header_append_getD2]
      by_cases hc : (compress app_payload).length < app_payload.length
      · rw [if_pos hc]
        exact iff_of_true (by decide) hc
      · rw [if_neg hc]
        exact iff_of_false (by decide) hc
    | true =>
      rw [build_data_payload_enc, build_mesh_header_append_getD2]
      by_cases hc : (compress app_payload).length < app_payload.length
      · rw [if_pos hc]
        exact iff_of_true (by decide) hc
      · rw [if_neg hc]
        exact iff_of_false (by decide) hc
  · intro he
    subst he
    rw [build_data_payload_plain, hdrop]
  · intro he
    subst he
    rw [build_data_payload_enc, hdrop]

/-- Witness for C7: a 3-byte payload whose "compressed" form is a single
byte (flag set), without encryption. -/
theorem compression_discipline_witness :
    ((build_data_payload nodeA (fun _ => [0]) false (fun p a => (p, a)) 5 nodeC 7
        [1, 2, 3]).getD 2 0 &&& MESH_FLAG_COMPRESSED ≠ 0 ↔
      ((fun (_ : Bytes) => ([0] : Bytes)) [1, 2, 3]).length < ([1, 2, 3] : Bytes).length) ∧
    (data_payload_to_send (fun _ => [0]) [1, 2, 3] =
      if ((fun (_ : Bytes) => ([0] : Bytes)) [1, 2, 3]).length <
          ([1, 2, 3] : Bytes).length then (fun (_ : Bytes) => ([0] : Bytes)) [1, 2, 3]
      else [1, 2, 3]) ∧
    (false = false →
      (build_data_payload nodeA (fun _ => [0]) false (fun p a => (p, a)) 5 nodeC 7
        [1, 2, 3]).drop 28 = data_payload_to_send (fun _ => [0]) [1, 2, 3]) ∧
    (false = true →
      (build_data_payload nodeA (fun _ => [0]) false (fun p a => (p, a)) 5 nodeC 7
        [1, 2, 3]).drop 28 =
      ((fun (p a : Bytes) => (p, a)) (data_payload_to_send (fun _ => [0]) [1, 2, 3])
        (nodeA ++ nodeC ++ pack_be32 7)).1 ++
      ((fun (p a : Bytes) => (p, a)) (data_payload_to_send (fun _ => [0]) [1, 2, 3])
        (nodeA ++ nodeC ++ pack_be32 7)).2) :=
  compression_discipline nodeA (fun _ => [0]) false (fun p a => (p, a)) 5 nodeC 7
    [1, 2, 3] (by decide) (by decide)

/-- The backoff update performed after a failed connection attempt in
`KISSClient._connect_with_backoff` (kiss_link.py, lines 204-213): after
`time.sleep(delay)` the delay is doubled only while it is still below
`reconnect_max_delay`; no clamp to the maximum is applied. -/
def next_backoff_delay (max_delay d : ℚ) : ℚ :=
  if d < max_delay then d * 2 else d

/-- The delay slept before retry `n` (0-based) in a run of consecutive
connection failures: `delay` starts at `reconnect_base_delay` (line
195) and is updated by `next_backoff_delay` after each failure. -/
def backoff_delay (base_delay max_delay : ℚ) : Nat → ℚ
  | 0 => base_delay
  | n + 1 => next_backoff_delay max_delay (backoff_delay base_delay max_delay n)

/-- Counterexample to C8 as stated: with the defaults
`reconnect_base_delay = 5.0` and `reconnect_max_delay = 60.0`, the
fifth sleep of a failing run is 80 s — strictly above the maximum —
because the un-clamped doubling is still applied to a delay of 40 < 60. -/
theorem backoff_sleep_exceeds_max :
    backoff_delay 5 60 4 = 80 ∧ ¬ (backoff_delay 5 60 4 ≤ 60) := by
  norm_num [backoff_delay, next_backoff_delay]

/-- C8 amended: the delay starts at `reconnect_base_delay` and doubles
after each failed attempt while still below `reconnect_max_delay`;
every sleep is at least the base delay, and when base < max every sleep
is strictly below `2 * reconnect_max_delay` (the doubling can overshoot
the configured maximum by up to a factor of two); when base ≥ max the
delay never changes. -/
theorem backoff_delay_bounds (base_delay max_delay : ℚ) (n : Nat)
    (hb : 0 < base_delay) :
    base_delay ≤ backoff_delay base_delay max_delay n ∧
    (base_delay < max_delay → backoff_delay base_delay max_delay n < 2 * max_delay) ∧
    (max_delay ≤ base_delay → backoff_delay base_delay max_delay n = base_delay) := by
  induction n with
  | zero =>
    refine ⟨le_refl _, fun h => ?_, fun _ => rfl⟩
    simp only [backoff_delay]
    linarith
  | succ n ih =>
    obtain ⟨h1, h2, h3⟩ := ih
    by_cases hd : backoff_delay base_delay max_delay n < max_delay
    · refine ⟨?_, fun hlt => ?_, fun hge => ?_⟩
      · simp only [backoff_delay, next_backoff_delay, if_pos hd]
        linarith
      · simp only [backoff_delay, next_backoff_delay, if_pos hd]
        linarith
      · exact absurd hd (by rw [h3 hge]; exact not_lt.mpr hge)
    · refine ⟨?_, fun hlt => ?_, fun hge => ?_⟩
      · simp only [backoff_delay, next_backoff_delay, if_neg hd]
        exact h1
      · simp only [backoff_delay, next_backoff_delay, if_neg hd]
        exact h2 hlt
      · simp only [backoff_delay, next_backoff_delay, if_neg hd]
        exact h3 hge

/-- Witness for the amended C8 at the spec defaults, six failures in. -/
theorem backoff_delay_bounds_witness :
    (5 : ℚ) ≤ backoff_delay 5 60 5 ∧
    ((5 : ℚ) < 60 → backoff_delay 5 60 5 < 2 * 60) ∧
    ((60 : ℚ) ≤ 5 → backoff_delay 5 60 5 = 5) :=
  backoff_delay_bounds 5 60 5 (by norm_num)

/-- The shared mutable structures of mesh_node.py accessed by the RX
thread and the cleanup thread. -/
inductive SharedTarget where
  | dedupCache
  | originatorsTable
  | neighborsTable
deriving DecidableEq, Repr

/-- The lock, if any, held around a statement.  mesh_node.py has exactly
one lock guarding shared routing/dedup state: `_data_seen_lock`
(`_seqno_lock` guards only the seqno counter). -/
inductive HeldLock where
  | noLock
  | dedupLock
deriving DecidableEq, Repr

/-- One access to a shared structure: what it touches, whether it
mutates it, and the lock held while it runs. -/
structure SharedAccess where
  target : SharedTarget
  isWrite : Bool
  held : HeldLock
deriving DecidableEq, Repr

/-- The dedup gate of `_handle_data_frame` (mesh_node.py, lines
389-392): the check-and-insert on `_data_seen` runs inside
`with self._data_seen_lock`. -/
def rx_dedup_gate_accesses : List SharedAccess :=
  [⟨SharedTarget.dedupCache, true, HeldLock.dedupLock⟩]

/-- `_handle_ogm` (mesh_node.py, lines 289-316): the neighbor update
and the originator update, with no lock taken. -/
def rx_handle_ogm_accesses : List SharedAccess :=
  [⟨SharedTarget.neighborsTable, true, HeldLock.noLock⟩,
   ⟨SharedTarget.originatorsTable, true, HeldLock.noLock⟩]

/-- `_lookup_best_next_hop` (mesh_node.py, lines 460-464), called from
the DATA forward path with no lock taken. -/
def rx_forward_lookup_accesses : List SharedAccess :=
  [⟨SharedTarget.originatorsTable, false, HeldLock.noLock⟩]

/-- One iteration of `_cleanup_loop` (mesh_node.py, lines 482-513), in
program order: scan then delete expired originators (lines 486-492, no
lock), scan then delete expired neighbors (lines 495-501, no lock),
scan `_data_seen.items()` for expired keys (lines 504-508, outside
`_data_seen_lock`), then delete them inside `with self._data_seen_lock`
(lines 509-511). -/
def cleanup_iteration_accesses : List SharedAccess :=
  [⟨SharedTarget.originatorsTable, false, HeldLock.noLock⟩,
   ⟨SharedTarget.originatorsTable, true, HeldLock.noLock⟩,
   ⟨SharedTarget.neighborsTable, false, HeldLock.noLock⟩,
   ⟨SharedTarget.neighborsTable, true, HeldLock.noLock⟩,
   ⟨SharedTarget.dedupCache, false, HeldLock.noLock⟩,
   ⟨SharedTarget.dedupCache, true, HeldLock.dedupLock⟩]

/-- All accesses to the shared structures from the RX frame path and
the cleanup loop. -/
def all_shared_accesses : List SharedAccess :=
  rx_dedup_gate_accesses ++ rx_handle_ogm_accesses ++ rx_forward_lookup_accesses ++
    cleanup_iteration_accesses

/-- The locking discipline asserted by C9: every dedup-cache access
holds the dedup lock, and every routing-table access holds some
mutex. -/
def lock_discipline_holds (l : List SharedAccess) : Bool :=
  l.all fun a =>
    match a.target with
    | SharedTarget.dedupCache => decide (a.held = HeldLock.dedupLock)
    | SharedTarget.originatorsTable => decide (a.held ≠ HeldLock.noLock)
    | SharedTarget.neighborsTable => decide (a.held ≠ HeldLock.noLock)

/-- Counterexample to C9 as stated: the dedup-expiry scan of
`_cleanup_loop` (the list comprehension over `_data_seen.items()`,
lines 504-508) runs outside `_data_seen_lock`, and no mutex guards the
originator/neighbor tables anywhere, so the claimed discipline fails on
the code. -/
theorem lock_discipline_fails :
    lock_discipline_holds all_shared_accesses = false ∧
    SharedAccess.mk SharedTarget.dedupCache false HeldLock.noLock ∈
      cleanup_iteration_accesses ∧
    SharedAccess.mk SharedTarget.originatorsTable true HeldLock.noLock ∈
      rx_handle_ogm_accesses := by
  refine ⟨rfl, ?_, ?_⟩ <;> decide

/-- C9 amended: the dedup lock is held for the RX check-and-insert and
for the cleanup loop's bulk deletion, but the cleanup loop's scan for
expired dedup keys runs outside the lock, and no mutex serializes the
originator/neighbor tables (OGM updates, DATA forwarding lookups and
cleanup eviction all run lockless). -/
theorem lock_discipline_actual :
    (rx_dedup_gate_accesses.all fun a => decide (a.held = HeldLock.dedupLock)) = true ∧
    SharedAccess.mk SharedTarget.dedupCache true HeldLock.dedupLock ∈
      cleanup_iteration_accesses ∧
    SharedAccess.mk SharedTarget.dedupCache false HeldLock.noLock ∈
      cleanup_iteration_accesses ∧
    ((rx_handle_ogm_accesses ++ rx_forward_lookup_accesses ++
      cleanup_iteration_accesses).all fun a =>
        decide (a.target = SharedTarget.dedupCache) ||
        decide (a.held = HeldLock.noLock)) = true := by
  refine ⟨rfl, ?_, ?_, rfl⟩ <;> decide

/-- Counterexample to C2 as stated: a DATA frame destined to another
node (`dest_id = nodeC ≠ nodeA`, ttl 5, route known) carrying the
COMPRESSED flag: with a succeeding `zlib.decompress` the frame is
forwarded, with a failing one it is dropped — decompression runs before
the delivery/forward branch and its outcome changes the forward
decision. -/
theorem forward_decision_depends_on_decompress :
    (handle_data_frame nodeA (fun _ _ _ => Except.error authFail) (fun _ => some [9])
        origsToC [] 100 nodeB 7 5 MESH_FLAG_COMPRESSED bodyToC).2 =
      Except.ok (some (MeshAction.send
        (build_mesh_header MESH_MSG_DATA MESH_FLAG_COMPRESSED 4 nodeB 7 ++ bodyToC))) ∧
    (handle_data_frame nodeA (fun _ _ _ => Except.error authFail) (fun _ => none)
        origsToC [] 100 nodeB 7 5 MESH_FLAG_COMPRESSED bodyToC).2 =
      Except.ok none := by
  exact ⟨rfl, rfl⟩

/-- C2 amended: a forwarded DATA body is reused verbatim — no
re-encryption, no re-compression — but AEAD decryption and DEFLATE
decompression are attempted before the delivery/forward branch on every
non-duplicate frame regardless of `dest_id`, so a decompression failure
drops a frame that would otherwise have been forwarded. -/
theorem forward_body_opaque_but_gated
    (node_id : Bytes)
    (decrypt : Bytes → Bytes → Bytes → Except PyError Bytes)
    (decompress : Bytes → Option Bytes)
    (originators : List (Bytes × OriginatorEntry))
    (seen : DedupMap) (now : Nat)
    (origin_id : Bytes) (seqno ttl flags : Nat) (body : Bytes)
    (h8 : origin_id.length = 8)
    (hfresh : mapContains seen (origin_id, seqno) = false)
    (hlen : 12 ≤ body.length)
    (hnotenc : flags &&& MESH_FLAG_ENCRYPTED = 0)
    (hcomp : flags &&& MESH_FLAG_COMPRESSED ≠ 0) :
    (∀ p, (handle_data_frame node_id decrypt decompress originators seen now origin_id
        seqno ttl flags body).2 = Except.ok (some (MeshAction.send p)) →
      p.drop 16 = body) ∧
    (decompress (body.drop 12) = none →
      (handle_data_frame node_id decrypt decompress originators seen now origin_id seqno
        ttl flags body).2 = Except.ok none) := by
  constructor
  · intro p hp
    obtain ⟨-, rfl⟩ := handle_data_frame_send_inv node_id decrypt decompress originators
      seen now origin_id seqno ttl flags body p hp
    exact drop16_build_mesh_header_append _ _ _ _ _ _ h8
  · intro hfail
    have h12 : ¬ (body.length < 12) := by omega
    simp [handle_data_frame, handle_data_body, hfresh, h12, hnotenc, hcomp, hfail]

/-- Witness for the amended C2: the concrete frame of the
counterexample, in both the forwarded and the dropped configuration. -/
theorem forward_body_opaque_but_gated_witness :
    ((∀ p, (handle_data_frame nodeA (fun _ _ _ => Except.error authFail)
        (fun _ => some [9]) origsToC [] 100 nodeB 7 5 MESH_FLAG_COMPRESSED bodyToC).2 =
        Except.ok (some (MeshAction.send p)) → p.drop 16 = bodyToC) ∧
      ((fun (_ : Bytes) => (some [9] : Option Bytes)) (bodyToC.drop 12) = none →
        (handle_data_frame nodeA (fun _ _ _ => Except.error authFail)
          (fun _ => some [9]) origsToC [] 100 nodeB 7 5 MESH_FLAG_COMPRESSED
          bodyToC).2 = Except.ok none)) ∧
    ((∀ p, (handle_data_frame nodeA (fun _ _ _ => Except.error authFail)
        (fun _ => none) origsToC [] 100 nodeB 7 5 MESH_FLAG_COMPRESSED bodyToC).2 =
        Except.ok (some (MeshAction.send p)) → p.drop 16 = bodyToC) ∧
      ((fun (_ : Bytes) => (none : Option Bytes)) (bodyToC.drop 12) = none →
        (handle_data_frame nodeA (fun _ _ _ => Except.error authFail)
          (fun _ => none) origsToC [] 100 nodeB 7 5 MESH_FLAG_COMPRESSED bodyToC).2 =
          Except.ok none)) :=
  ⟨forward_body_opaque_but_gated nodeA (fun _ _ _ => Except.error authFail)
      (fun _ => some [9]) origsToC [] 100 nodeB 7 5 MESH_FLAG_COMPRESSED bodyToC
      (by decide) (by decide) (by decide) (by decide) (by decide),
    forward_body_opaque_but_gated nodeA (fun _ _ _ => Except.error authFail)
      (fun _ => none) origsToC [] 100 nodeB 7 5 MESH_FLAG_COMPRESSED bodyToC
      (by decide) (by decide) (by decide) (by decide) (by decide)⟩

end ArdopMesh
